import Mathlib

/-!
Verification of the resource-resolution core of `pulldown-cmark-mdcat`
(`src/resources.rs`): the `MimeData` value type, the `filter_schemes`
scheme guard, the `NoopResourceHandler`, and the fallback-chain
`DispatchingResourceHandler`.

Shallow embedding choices:
* A handler (a `ResourceUrlHandler` trait object) is modelled by its
  `read_resource` behaviour, a function `Url → Except IOError MimeData`.
* The Rust type `std::io::Error` is modelled as a kind plus a message string;
  only the `Unsupported` kind is load-bearing, other kinds are opaque.
* A parsed URL is modelled as its scheme plus the rest of its
  serialization; the `Display` of a URL is `scheme ++ ":" ++ rest`.
-/

set_option autoImplicit false

namespace Resources

/-- The error classification of the Rust type `std::io::ErrorKind`, restricted to
the kinds the code distinguishes: `Unsupported` is the protocol signal,
every other kind is opaque (a few representatives are included so that
"kind is not Unsupported" is concretely satisfiable). -/
inductive ErrorKind where
  | Unsupported
  | NotFound
  | PermissionDenied
  | Other
deriving DecidableEq, Repr

/-- The Rust type `std::io::Error` as constructed by `Error::new(kind, message)`:
a classification together with a message string. -/
structure IOError where
  kind : ErrorKind
  message : String
deriving DecidableEq, Repr

/-- A parsed absolute URL: its scheme and the remainder of its
serialization.  The `Display` of a `url::Url` prints the full serialization,
modelled here as `scheme ++ ":" ++ rest`. -/
structure Url where
  scheme : String
  rest : String
deriving DecidableEq, Repr

/-- The `Display` rendering of a URL, as used by `format!("{url}")`. -/
def urlStr (u : Url) : String :=
  u.scheme ++ ":" ++ u.rest

/-- The Rust `Debug` rendering of a `&[&str]` scheme list, as used by
`format!("{schemes:?}")`: quoted entries, comma-separated, in brackets. -/
def renderSchemes (schemes : List String) : String :=
  "[" ++ String.intercalate (", ") (schemes.map (fun s => "\x22" ++ s ++ "\x22")) ++ "]"

/-- Modelled from the spec: `mime::Mime` is an external crate type not under
`src/`; a mime value is its serialized form, e.g. `"image/png; charset=binary"`. -/
def Mime := String
deriving instance DecidableEq, Repr for Mime

/-- Modelled from the spec: `Mime::essence_str` of the external `mime` crate
returns the type/subtype portion of the mime classification without
parameters, i.e. everything before the parameter separator. -/
def Mime.essence_str (m : Mime) : String :=
  String.mk ((String.data m).takeWhile (fun c => c ≠ ';'))

/-- `MimeData` from `resources.rs`: the data of a resource with its
associated mime type, if known. -/
structure MimeData where
  mime_type : Option Mime
  data : List Nat
deriving DecidableEq, Repr

/-- `MimeData::mime_type_essence`: the essence of the mime type, if any. -/
def MimeData.mime_type_essence (self : MimeData) : Option String :=
  self.mime_type.map (fun m => m.essence_str)

/-- A resource handler, modelled by its `read_resource` behaviour. -/
abbrev Handler := Url → Except IOError MimeData

/-- `filter_schemes` from `resources.rs`: return the URL if its scheme is
contained in `schemes`, otherwise an `Unsupported` error naming the URL and
the accepted schemes. -/
def filter_schemes (schemes : List String) (url : Url) : Except IOError Url :=
  if schemes.contains url.scheme then
    Except.ok url
  else
    Except.error ⟨ErrorKind.Unsupported,
      "Unsupported scheme in " ++ urlStr url ++ ", expected one of " ++ renderSchemes schemes⟩

/-- `DispatchingResourceHandler` from `resources.rs`: a handler wrapping an
ordered list of inner handlers. -/
structure DispatchingResourceHandler where
  handlers : List Handler

/-- The loop body of `DispatchingResourceHandler::read_resource`: try the
handlers in order; a success returns immediately, an `Unsupported` error
moves on to the next handler, any other error returns immediately; an
exhausted list yields a synthesized `Unsupported` error naming the URL. -/
def readResourceList : List Handler → Url → Except IOError MimeData
  | [], url =>
      Except.error ⟨ErrorKind.Unsupported,
        "No handler supported reading from " ++ urlStr url⟩
  | h :: rest, url =>
      match h url with
      | Except.ok data => Except.ok data
      | Except.error e =>
          if e.kind = ErrorKind.Unsupported then readResourceList rest url
          else Except.error e

/-- `DispatchingResourceHandler::read_resource`. -/
def DispatchingResourceHandler.read_resource (self : DispatchingResourceHandler)
    (url : Url) : Except IOError MimeData :=
  readResourceList self.handlers url

/-- `NoopResourceHandler::read_resource` from `resources.rs`: always an
`Unsupported` error naming the URL. -/
def NoopResourceHandler.read_resource (url : Url) : Except IOError MimeData :=
  Except.error ⟨ErrorKind.Unsupported,
    "Reading from resource " ++ urlStr url ++ " is not supported"⟩

/-- Concrete sample values used by witnesses. -/
def u0 : Url := ⟨"file", "///tmp/x.png"⟩

def d0 : MimeData := ⟨some ("image/png"), [137, 80, 78, 71]⟩

/-- A handler that succeeds on every URL with the sample data. -/
def hOk : Handler := fun _ => Except.ok d0

/-- A handler that declines every URL with an `Unsupported` error. -/
def hDecline : Handler := fun v =>
  Except.error ⟨ErrorKind.Unsupported, "skip " ++ urlStr v⟩

/-- A handler that fails hard on every URL. -/
def hFail : Handler := fun _ =>
  Except.error ⟨ErrorKind.NotFound, "missing"⟩

theorem readResourceList_nil (u : Url) :
    readResourceList [] u =
      Except.error ⟨ErrorKind.Unsupported,
        "No handler supported reading from " ++ urlStr u⟩ := rfl

theorem readResourceList_cons (h : Handler) (rest : List Handler) (u : Url) :
    readResourceList (h :: rest) u =
      match h u with
      | Except.ok data => Except.ok data
      | Except.error e =>
          if e.kind = ErrorKind.Unsupported then readResourceList rest u
          else Except.error e := rfl

/-- Handlers that all decline with `Unsupported` are skipped over. -/
theorem readResourceList_skip (l1 l2 : List Handler) (u : Url)
    (hskip : ∀ f ∈ l1, ∃ e, f u = Except.error e ∧ e.kind = ErrorKind.Unsupported) :
    readResourceList (l1 ++ l2) u = readResourceList l2 u := by
  induction l1 with
  | nil => rfl
  | cons h t ih =>
    obtain ⟨e, he, hk⟩ := hskip h (List.mem_cons_self h t)
    rw [List.cons_append, readResourceList_cons, he]
    simp only [hk, if_pos rfl]
    exact ih (fun f hf => hskip f (List.mem_cons_of_mem h hf))

/-- Prepending the same handler list preserves equality of outcomes. -/
theorem readResourceList_append_congr (A X Y : List Handler) (u : Url)
    (hXY : readResourceList X u = readResourceList Y u) :
    readResourceList (A ++ X) u = readResourceList (A ++ Y) u := by
  induction A with
  | nil => simpa using hXY
  | cons h t ih =>
    rw [List.cons_append, List.cons_append, readResourceList_cons, readResourceList_cons]
    cases h u with
    | ok data => rfl
    | error e =>
      by_cases hk : e.kind = ErrorKind.Unsupported
      · simp only [hk, if_pos rfl, ih]
      · simp only [if_neg hk]

/-- An inner dispatcher at the head of the list behaves like its flattened
handler list. -/
theorem readResourceList_flatten (B C : List Handler) (u : Url) :
    readResourceList ((fun v => readResourceList B v) :: C) u =
      readResourceList (B ++ C) u := by
  induction B with
  | nil =>
    rw [readResourceList_cons]
    simp [readResourceList_nil]
  | cons h t ih =>
    rw [readResourceList_cons, List.cons_append, readResourceList_cons,
      readResourceList_cons] at *
    cases h u with
    | ok data => rfl
    | error e =>
      by_cases hk : e.kind = ErrorKind.Unsupported
      · simpa only [hk, if_pos rfl] using ih
      · simp only [if_neg hk]

/-- A dispatcher error of a kind other than `Unsupported` was returned
verbatim by some handler in the list. -/
theorem readResourceList_error_provenance (l : List Handler) (u : Url) (e : IOError)
    (hk : e.kind ≠ ErrorKind.Unsupported) :
    readResourceList l u = Except.error e → ∃ f ∈ l, f u = Except.error e := by
  induction l with
  | nil =>
    intro hd
    rw [readResourceList_nil] at hd
    cases hd
    exact absurd rfl hk
  | cons h t ih =>
    intro hd
    rw [readResourceList_cons] at hd
    cases hh : h u with
    | ok data =>
      rw [hh] at hd
      exact absurd hd (by simp)
    | error e2 =>
      by_cases hk2 : e2.kind = ErrorKind.Unsupported
      · simp only [hh, hk2, if_pos rfl] at hd
        obtain ⟨f, hf, hfe⟩ := ih hd
        exact ⟨f, List.mem_cons_of_mem h hf, hfe⟩
      · simp only [hh, if_neg hk2] at hd
        cases hd
        exact ⟨h, List.mem_cons_self h t, hh⟩

/-- Claim C1: for a dispatcher built from an ordered handler list, if every handler
before `h` declines with `Unsupported` and `h` succeeds, then
`read_resource` returns exactly the result of `h`, and the handlers after
`h` do not contribute: the outcome is unchanged under replacing the whole
tail after `h` by an arbitrary other tail. -/
theorem dispatch_first_success (l1 l2 l2' : List Handler) (h : Handler) (u : Url)
    (d : MimeData)
    (hskip : ∀ f ∈ l1, ∃ e, f u = Except.error e ∧ e.kind = ErrorKind.Unsupported)
    (hok : h u = Except.ok d) :
    DispatchingResourceHandler.read_resource ⟨l1 ++ h :: l2⟩ u = Except.ok d ∧
    DispatchingResourceHandler.read_resource ⟨l1 ++ h :: l2⟩ u =
      DispatchingResourceHandler.read_resource ⟨l1 ++ h :: l2'⟩ u := by
  have key : ∀ l : List Handler,
      DispatchingResourceHandler.read_resource ⟨l1 ++ h :: l⟩ u = Except.ok d := by
    intro l
    show readResourceList (l1 ++ h :: l) u = Except.ok d
    rw [readResourceList_skip l1 (h :: l) u hskip, readResourceList_cons, hok]
  exact ⟨key l2, (key l2).trans (key l2').symm⟩

/-- Witness for C1: handlers `[hDecline, hOk, hFail]` on `u0` give the data of `hOk`,
and the third handler is irrelevant. -/
theorem dispatch_first_success_witness :
    DispatchingResourceHandler.read_resource ⟨[hDecline] ++ hOk :: [hFail]⟩ u0 =
      Except.ok d0 ∧
    DispatchingResourceHandler.read_resource ⟨[hDecline] ++ hOk :: [hFail]⟩ u0 =
      DispatchingResourceHandler.read_resource ⟨[hDecline] ++ hOk :: []⟩ u0 :=
  dispatch_first_success [hDecline] [hFail] [] hOk u0 d0
    (by
      intro f hf
      rw [List.mem_singleton] at hf
      exact ⟨⟨ErrorKind.Unsupported, "skip " ++ urlStr u0⟩, by rw [hf]; rfl, rfl⟩)
    rfl

/-- Claim C2: if every handler before `h` declines with `Unsupported` and `h` fails
with an error whose kind is not `Unsupported`, the dispatcher returns exactly
that error (same kind and message), and the handlers after `h` do not
contribute to the outcome. -/
theorem dispatch_hard_error (l1 l2 l2' : List Handler) (h : Handler) (u : Url)
    (e : IOError)
    (hskip : ∀ f ∈ l1, ∃ e2, f u = Except.error e2 ∧ e2.kind = ErrorKind.Unsupported)
    (herr : h u = Except.error e) (hk : e.kind ≠ ErrorKind.Unsupported) :
    DispatchingResourceHandler.read_resource ⟨l1 ++ h :: l2⟩ u = Except.error e ∧
    DispatchingResourceHandler.read_resource ⟨l1 ++ h :: l2⟩ u =
      DispatchingResourceHandler.read_resource ⟨l1 ++ h :: l2'⟩ u := by
  have key : ∀ l : List Handler,
      DispatchingResourceHandler.read_resource ⟨l1 ++ h :: l⟩ u = Except.error e := by
    intro l
    show readResourceList (l1 ++ h :: l) u = Except.error e
    rw [readResourceList_skip l1 (h :: l) u hskip, readResourceList_cons]
    simp only [herr, if_neg hk]
  exact ⟨key l2, (key l2).trans (key l2').symm⟩

/-- Witness for C2: handlers `[hDecline, hFail, hOk]` on `u0` give the error of `hFail`
untouched, and the third handler is irrelevant. -/
theorem dispatch_hard_error_witness :
    DispatchingResourceHandler.read_resource ⟨[hDecline] ++ hFail :: [hOk]⟩ u0 =
      Except.error ⟨ErrorKind.NotFound, "missing"⟩ ∧
    DispatchingResourceHandler.read_resource ⟨[hDecline] ++ hFail :: [hOk]⟩ u0 =
      DispatchingResourceHandler.read_resource ⟨[hDecline] ++ hFail :: []⟩ u0 :=
  dispatch_hard_error [hDecline] [hOk] [] hFail u0 ⟨ErrorKind.NotFound, "missing"⟩
    (by
      intro f hf
      rw [List.mem_singleton] at hf
      exact ⟨⟨ErrorKind.Unsupported, "skip " ++ urlStr u0⟩, by rw [hf]; rfl, rfl⟩)
    rfl (by decide)

/-- Claim C3: if the handler list is empty, or every handler declines with
`Unsupported`, the dispatcher fails with a synthesized `Unsupported` error
whose message names the URL. -/
theorem dispatch_exhausted (l : List Handler) (u : Url)
    (hall : ∀ f ∈ l, ∃ e, f u = Except.error e ∧ e.kind = ErrorKind.Unsupported) :
    DispatchingResourceHandler.read_resource ⟨l⟩ u =
      Except.error ⟨ErrorKind.Unsupported,
        "No handler supported reading from " ++ urlStr u⟩ := by
  show readResourceList l u = _
  have hskip := readResourceList_skip l [] u hall
  rw [List.append_nil] at hskip
  rw [hskip, readResourceList_nil]

/-- Witness for C3: the all-declining chain `[hDecline]` on `u0` yields the
synthesized `Unsupported` error naming `u0`. -/
theorem dispatch_exhausted_witness :
    DispatchingResourceHandler.read_resource ⟨[hDecline]⟩ u0 =
      Except.error ⟨ErrorKind.Unsupported,
        "No handler supported reading from " ++ urlStr u0⟩ :=
  dispatch_exhausted [hDecline] u0
    (by
      intro f hf
      rw [List.mem_singleton] at hf
      exact ⟨⟨ErrorKind.Unsupported, "skip " ++ urlStr u0⟩, by rw [hf]; rfl, rfl⟩)

/-- Claim C4: `filter_schemes` returns the URL unchanged exactly when its scheme is
a member of the allowed list; otherwise it fails with an `Unsupported` error
whose message names the offending URL and the accepted scheme set. -/
theorem filter_schemes_spec (S : List String) (u : Url) :
    (filter_schemes S u = Except.ok u ↔ u.scheme ∈ S) ∧
    (u.scheme ∉ S →
      filter_schemes S u = Except.error ⟨ErrorKind.Unsupported,
        "Unsupported scheme in " ++ urlStr u ++ ", expected one of " ++
          renderSchemes S⟩) := by
  by_cases hmem : u.scheme ∈ S
  · simp [filter_schemes, hmem]
  · simp [filter_schemes, hmem]

/-- Witness for C4: `u0` has scheme `file`, not in `["data"]`, so the guard
fails with the `Unsupported` error naming the URL and the accepted set. -/
theorem filter_schemes_spec_witness :
    filter_schemes ["data"] u0 = Except.error ⟨ErrorKind.Unsupported,
      "Unsupported scheme in " ++ urlStr u0 ++ ", expected one of " ++
        renderSchemes ["data"]⟩ :=
  (filter_schemes_spec ["data"] u0).2 (by decide)

/-- Claim C5: a dispatcher over `A ++ [dispatcher over B] ++ C` behaves identically
to a single dispatcher over the flattened list `A ++ B ++ C`, on every URL. -/
theorem dispatch_flatten (A B C : List Handler) (u : Url) :
    DispatchingResourceHandler.read_resource
        ⟨A ++ (fun v => DispatchingResourceHandler.read_resource ⟨B⟩ v) :: C⟩ u =
      DispatchingResourceHandler.read_resource ⟨A ++ B ++ C⟩ u := by
  show readResourceList (A ++ (fun v => readResourceList B v) :: C) u =
      readResourceList (A ++ B ++ C) u
  rw [List.append_assoc]
  exact readResourceList_append_congr A _ _ u (readResourceList_flatten B C u)

/-- Claim C6: `NoopResourceHandler::read_resource` fails on every URL with an
`Unsupported` error naming the rejected URL; it never succeeds and never
fails with any other kind. -/
theorem noop_read_resource_spec (u : Url) :
    NoopResourceHandler.read_resource u =
      Except.error ⟨ErrorKind.Unsupported,
        "Reading from resource " ++ urlStr u ++ " is not supported"⟩ := rfl

/-- Claim C7: `mime_type_essence` returns nothing when no mime type is set, the
parameter-free essence when one is set, and in particular `"image/png"` for
the mime type `"image/png; charset=binary"`. -/
theorem mime_type_essence_spec (m : Mime) (d : List Nat) :
    MimeData.mime_type_essence ⟨none, d⟩ = none ∧
    MimeData.mime_type_essence ⟨some m, d⟩ = some m.essence_str ∧
    MimeData.mime_type_essence ⟨some ("image/png; charset=binary"), d⟩ =
      some ("image/png") := by
  refine ⟨rfl, rfl, ?_⟩
  show some (Mime.essence_str ("image/png; charset=binary")) = some ("image/png")
  decide

/-- Claim C8: the noop handler is an identity of the fallback chain: prepending or
appending it to any handler list leaves the outcome of the dispatcher unchanged,
and a dispatcher over a noop-only chain of any length (including the empty
chain) fails with the synthesized `Unsupported` error. -/
theorem noop_identity (H : List Handler) (u : Url) (n : Nat) :
    DispatchingResourceHandler.read_resource
        ⟨NoopResourceHandler.read_resource :: H⟩ u =
      DispatchingResourceHandler.read_resource ⟨H⟩ u ∧
    DispatchingResourceHandler.read_resource
        ⟨H ++ [NoopResourceHandler.read_resource]⟩ u =
      DispatchingResourceHandler.read_resource ⟨H⟩ u ∧
    DispatchingResourceHandler.read_resource
        ⟨List.replicate n NoopResourceHandler.read_resource⟩ u =
      Except.error ⟨ErrorKind.Unsupported,
        "No handler supported reading from " ++ urlStr u⟩ := by
  refine ⟨rfl, ?_, ?_⟩
  · show readResourceList (H ++ [NoopResourceHandler.read_resource]) u =
        readResourceList H u
    have hbase : readResourceList [NoopResourceHandler.read_resource] u =
        readResourceList [] u := rfl
    have := readResourceList_append_congr H _ _ u hbase
    rwa [List.append_nil] at this
  · show readResourceList (List.replicate n NoopResourceHandler.read_resource) u = _
    induction n with
    | zero => rfl
    | succ k ih =>
      rw [List.replicate_succ, readResourceList_cons]
      exact ih

/-- Claim C9: every error this core constructs itself has kind `Unsupported` (the
`filter_schemes` failure, the noop handler failure, and the synthesized
exhaustion error of the dispatcher); hence an error of any other kind returned by
the dispatcher came verbatim from some inner handler. -/
theorem core_errors_unsupported (l : List Handler) (u : Url) (e : IOError)
    (hd : DispatchingResourceHandler.read_resource ⟨l⟩ u = Except.error e)
    (hk : e.kind ≠ ErrorKind.Unsupported) :
    (∃ f ∈ l, f u = Except.error e) ∧
    (∀ S v e2, filter_schemes S v = Except.error e2 →
      e2.kind = ErrorKind.Unsupported) ∧
    (∀ v e3, NoopResourceHandler.read_resource v = Except.error e3 →
      e3.kind = ErrorKind.Unsupported) ∧
    (∀ v, DispatchingResourceHandler.read_resource ⟨[]⟩ v =
      Except.error ⟨ErrorKind.Unsupported,
        "No handler supported reading from " ++ urlStr v⟩) := by
  refine ⟨readResourceList_error_provenance l u e hk hd, ?_, ?_, fun v => rfl⟩
  · intro S v e2 hfs
    unfold filter_schemes at hfs
    by_cases hmem : S.contains v.scheme
    · rw [if_pos hmem] at hfs
      exact absurd hfs (by simp)
    · rw [if_neg hmem] at hfs
      cases hfs
      rfl
  · intro v e3 hnoop
    cases hnoop
    rfl

/-- Witness for C9: the dispatcher over `[hFail]` returns the `NotFound`
error of `hFail`, which indeed originated from `hFail` itself. -/
theorem core_errors_unsupported_witness :
    (∃ f ∈ [hFail], f u0 = Except.error ⟨ErrorKind.NotFound, "missing"⟩) ∧
    (∀ S v e2, filter_schemes S v = Except.error e2 →
      e2.kind = ErrorKind.Unsupported) ∧
    (∀ v e3, NoopResourceHandler.read_resource v = Except.error e3 →
      e3.kind = ErrorKind.Unsupported) ∧
    (∀ v, DispatchingResourceHandler.read_resource ⟨[]⟩ v =
      Except.error ⟨ErrorKind.Unsupported,
        "No handler supported reading from " ++ urlStr v⟩) :=
  core_errors_unsupported [hFail] u0 ⟨ErrorKind.NotFound, "missing"⟩ rfl (by decide)

/-- Claim C10: `filter_schemes` decides membership by exact, case-sensitive string
equality of schemes: it returns the URL unchanged exactly when some entry of
the list is equal, byte for byte, to the scheme of the URL; an entry differing
only in letter case does not match, and the empty list rejects every URL
with an `Unsupported` error. -/
theorem filter_schemes_exact (S : List String) (u : Url) :
    (filter_schemes S u = Except.ok u ↔ ∃ s ∈ S, s = u.scheme) ∧
    (∃ e, filter_schemes [] u = Except.error e ∧
      e.kind = ErrorKind.Unsupported) ∧
    (∃ e, filter_schemes ["FILE"] ⟨"file", "///tmp/x"⟩ = Except.error e ∧
      e.kind = ErrorKind.Unsupported) := by
  refine ⟨?_, ?_, ?_⟩
  · by_cases hmem : u.scheme ∈ S
    · simp [filter_schemes, hmem]
    · simp [filter_schemes, hmem]
  · exact ⟨_, rfl, rfl⟩
  · exact ⟨_, rfl, rfl⟩

/-- Witness for C10: with the allowed list `["file"]` and the `file`-scheme URL
`u0`, the guard accepts, and the negative parts hold as stated. -/
theorem filter_schemes_exact_witness :
    (filter_schemes ["file"] u0 = Except.ok u0 ↔ ∃ s ∈ ["file"], s = u0.scheme) ∧
    (∃ e, filter_schemes [] u0 = Except.error e ∧
      e.kind = ErrorKind.Unsupported) ∧
    (∃ e, filter_schemes ["FILE"] ⟨"file", "///tmp/x"⟩ = Except.error e ∧
      e.kind = ErrorKind.Unsupported) :=
  filter_schemes_exact ["file"] u0

end Resources
